import Mathlib

/-!
Verification of the SX1255 RF transceiver control subsystem of linht-web.

The Go sources embedded here are src/plugins/hardware_regs.go (register map,
SPI transport, SX1255Controller) and the GPIO controller file.  Machine bytes
are modelled as Nat values kept below 256 by construction or by hypothesis;
the SPI bus and register file behind it are modelled as a total register
state, with explicit logs of the register writes and reads a call issues.
Timing delays are modelled as events in an explicit trace.  Rounding of the
positive float64 quotients used by the frequency code is modelled as exact
rational rounding half away from zero, which agrees with the float64
computation for the 32 MHz reference clock on the whole valid range
(the quotients are at distance at least 2 to the power -27 from any halfway
point, far above the float64 evaluation error of the expressions involved).
-/

namespace LinhtWeb

/-- Register addresses of the SX1255 (hardware_regs.go, address constants). -/
def RegMode : Nat := 0x00

/-- RX frequency MSB register address. -/
def RegFrfhRx : Nat := 0x01

/-- RX frequency middle byte register address. -/
def RegFrfmRx : Nat := 0x02

/-- RX frequency LSB register address. -/
def RegFrflRx : Nat := 0x03

/-- TX frequency MSB register address. -/
def RegFrfhTx : Nat := 0x04

/-- TX frequency middle byte register address. -/
def RegFrfmTx : Nat := 0x05

/-- TX frequency LSB register address. -/
def RegFrflTx : Nat := 0x06

/-- Chip version register address. -/
def RegVersion : Nat := 0x07

/-- TX front end 1 register address (DAC and mixer gain). -/
def RegTxfe1 : Nat := 0x08

/-- TX front end 2 register address. -/
def RegTxfe2 : Nat := 0x09

/-- TX front end 3 register address. -/
def RegTxfe3 : Nat := 0x0A

/-- TX front end 4 register address. -/
def RegTxfe4 : Nat := 0x0B

/-- RX front end 1 register address (LNA and PGA gain). -/
def RegRxfe1 : Nat := 0x0C

/-- RX front end 2 register address. -/
def RegRxfe2 : Nat := 0x0D

/-- RX front end 3 register address. -/
def RegRxfe3 : Nat := 0x0E

/-- DIO pin mapping register address. -/
def RegIoMap : Nat := 0x0F

/-- Clock select and loopback register address. -/
def RegCkSel : Nat := 0x10

/-- Status register address. -/
def RegStat : Nat := 0x11

/-- IQ interface mode register address. -/
def RegIism : Nat := 0x12

/-- Digital bridge configuration register address. -/
def RegDigBridge : Nat := 0x13

/-- MODE register bit: enable PA driver (1 shl 3). -/
def ModeBitDriverEnable : Nat := 8

/-- MODE register bit: enable TX path (1 shl 2). -/
def ModeBitTxEnable : Nat := 4

/-- MODE register bit: enable RX path (1 shl 1). -/
def ModeBitRxEnable : Nat := 2

/-- MODE register bit: enable PDS and XOSC (1 shl 0). -/
def ModeBitRefEnable : Nat := 1

/-- LNA gain code for 0 dB (highest gain). -/
def LnaGainMax : Nat := 1

/-- LNA gain code for minus 6 dB. -/
def LnaGainMinus6 : Nat := 2

/-- LNA gain code for minus 12 dB. -/
def LnaGainMinus12 : Nat := 3

/-- LNA gain code for minus 24 dB. -/
def LnaGainMinus24 : Nat := 4

/-- LNA gain code for minus 36 dB. -/
def LnaGainMinus36 : Nat := 5

/-- LNA gain code for minus 48 dB. -/
def LnaGainMinus48 : Nat := 6

/-- The fixed table DefaultRegisterValues of hardware_regs.go, in source text
order.  The Go value is a map with unspecified iteration order; the claims
settled here depend only on the multiset of entries and on the count. -/
def DefaultRegisterValues : List (Nat × Nat) :=
  [(RegMode, 0x01), (RegFrfhRx, 0xC0), (RegFrfmRx, 0xE3), (RegFrflRx, 0x8E),
   (RegFrfhTx, 0xC0), (RegFrfmTx, 0xE3), (RegFrflTx, 0x8E),
   (RegTxfe1, 0x2E), (RegTxfe2, 0x24), (RegTxfe3, 0x60), (RegTxfe4, 0x02),
   (RegRxfe1, 0x2F), (RegRxfe2, 0xA5), (RegRxfe3, 0x06), (RegCkSel, 0x02)]

/-- Error taxonomy of the spec, standing for the Go error values produced
with fmt.Errorf: the controller-not-initialized errors, the argument
validation errors, and underlying bus failures. -/
inductive HwError where
  | notInitialized
  | invalidArgument
  | transportFailure
  deriving DecidableEq

/-- State of one SX1255Controller session: the register file seen through the
SPI bus, the configured reference clock, the initialized flag of the Go
struct, and logs of the register writes and reads issued so far.  The bus
transport is modelled as error free; all transport-level claims settled here
concern frame construction and argument validation, not bus faults. -/
structure SXState where
  regs : Nat → Nat
  clockFreq : Nat
  initialized : Bool
  writes : List (Nat × Nat)
  reads : List Nat

/-- One successful SPI register write (SPIDevice.WriteRegister): the register
file is updated and the write is logged. -/
def spiWrite (s : SXState) (addr value : Nat) : SXState :=
  { s with regs := fun a => if a = addr then value else s.regs a,
           writes := s.writes ++ [(addr, value)] }

/-- One successful SPI register read (SPIDevice.ReadRegister): returns the
register value and logs the read. -/
def spiRead (s : SXState) (addr : Nat) : Nat × SXState :=
  (s.regs addr, { s with reads := s.reads ++ [addr] })

/-- Rounding of the exact nonnegative quotient a / b half away from zero, as
Go math.Round computes on the frequency expressions for the 32 MHz clock. -/
def natRoundDiv (a b : Nat) : Nat := (2 * a + b) / (2 * b)

/-- The frequency tuning word of SetRxFrequency and SetTxFrequency:
Frf = round(freqHz * 2 pow 20 / clockFreq). -/
def frfOf (clockFreq freqHz : Nat) : Nat := natRoundDiv (freqHz * 2 ^ 20) clockFreq

/-- SX1255Controller.WriteRegister: initialized check, then a single register
write.  The Go code performs no register address validation here. -/
def writeRegister (s : SXState) (addr value : Nat) : Except HwError Unit × SXState :=
  if s.initialized = false then (.error .notInitialized, s)
  else (.ok (), spiWrite s addr value)

/-- SX1255Controller.ReadRegister: initialized check, then a single register
read.  No register address validation is performed. -/
def readRegister (s : SXState) (addr : Nat) : Except HwError Nat × SXState :=
  if s.initialized = false then (.error .notInitialized, s)
  else
    let r := spiRead s addr
    (.ok r.1, r.2)

/-- SX1255Controller.SetRxFrequency: initialized check, then range check
(400 to 510 MHz) before any write, then the tuning word is split into three
bytes written big endian to the three RX frequency registers. -/
def setRxFrequency (s : SXState) (freqHz : Nat) : Except HwError Unit × SXState :=
  if s.initialized = false then (.error .notInitialized, s)
  else if freqHz < 400000000 ∨ 510000000 < freqHz then (.error .invalidArgument, s)
  else
    let frf := frfOf s.clockFreq freqHz
    let msb := (frf >>> 16) &&& 0xFF
    let mid := (frf >>> 8) &&& 0xFF
    let lsb := frf &&& 0xFF
    (.ok (), spiWrite (spiWrite (spiWrite s RegFrfhRx msb) RegFrfmRx mid) RegFrflRx lsb)

/-- SX1255Controller.GetRxFrequency: reads the three RX frequency registers,
recombines them big endian and converts back to Hz. -/
def getRxFrequency (s : SXState) : Except HwError Nat × SXState :=
  if s.initialized = false then (.error .notInitialized, s)
  else
    let rm := spiRead s RegFrfhRx
    let rmid := spiRead rm.2 RegFrfmRx
    let rl := spiRead rmid.2 RegFrflRx
    let frf := (rm.1 <<< 16) ||| (rmid.1 <<< 8) ||| rl.1
    (.ok (natRoundDiv (s.clockFreq * frf) (2 ^ 20)), rl.2)

/-- SX1255Controller.SetTxFrequency: same validation and split as the RX
variant, writing the three TX frequency registers. -/
def setTxFrequency (s : SXState) (freqHz : Nat) : Except HwError Unit × SXState :=
  if s.initialized = false then (.error .notInitialized, s)
  else if freqHz < 400000000 ∨ 510000000 < freqHz then (.error .invalidArgument, s)
  else
    let frf := frfOf s.clockFreq freqHz
    let msb := (frf >>> 16) &&& 0xFF
    let mid := (frf >>> 8) &&& 0xFF
    let lsb := frf &&& 0xFF
    (.ok (), spiWrite (spiWrite (spiWrite s RegFrfhTx msb) RegFrfmTx mid) RegFrflTx lsb)

/-- SX1255Controller.GetTxFrequency: reads the three TX frequency registers,
recombines them big endian and converts back to Hz. -/
def getTxFrequency (s : SXState) : Except HwError Nat × SXState :=
  if s.initialized = false then (.error .notInitialized, s)
  else
    let rm := spiRead s RegFrfhTx
    let rmid := spiRead rm.2 RegFrfmTx
    let rl := spiRead rmid.2 RegFrflTx
    let frf := (rm.1 <<< 16) ||| (rmid.1 <<< 8) ||| rl.1
    (.ok (natRoundDiv (s.clockFreq * frf) (2 ^ 20)), rl.2)

/-- SX1255Controller.EnableRx: read modify write on the MODE register, OR in
the RX bit to enable, AND with the uint8 complement 0xFD to disable. -/
def enableRx (s : SXState) (enable : Bool) : Except HwError Unit × SXState :=
  if s.initialized = false then (.error .notInitialized, s)
  else
    let r := spiRead s RegMode
    let reg2 := if enable then r.1 ||| ModeBitRxEnable else r.1 &&& 0xFD
    (.ok (), spiWrite r.2 RegMode reg2)

/-- SX1255Controller.EnableTx: read modify write on the MODE register, OR in
the TX bit to enable, AND with the uint8 complement 0xFB to disable. -/
def enableTx (s : SXState) (enable : Bool) : Except HwError Unit × SXState :=
  if s.initialized = false then (.error .notInitialized, s)
  else
    let r := spiRead s RegMode
    let reg2 := if enable then r.1 ||| ModeBitTxEnable else r.1 &&& 0xFB
    (.ok (), spiWrite r.2 RegMode reg2)

/-- SX1255Controller.EnablePA: read modify write on the MODE register, OR in
the DRIVER bit to enable, AND with the uint8 complement 0xF7 to disable. -/
def enablePA (s : SXState) (enable : Bool) : Except HwError Unit × SXState :=
  if s.initialized = false then (.error .notInitialized, s)
  else
    let r := spiRead s RegMode
    let reg2 := if enable then r.1 ||| ModeBitDriverEnable else r.1 &&& 0xF7
    (.ok (), spiWrite r.2 RegMode reg2)

/-- The threshold ladder of SX1255Controller.SetLNAGain mapping a requested
gain in dB (uint8) to one of the six LNA hardware codes. -/
def lnaGainSetting (gainDb : Nat) : Nat :=
  if 45 < gainDb then LnaGainMax
  else if 39 < gainDb then LnaGainMinus6
  else if 30 < gainDb then LnaGainMinus12
  else if 18 < gainDb then LnaGainMinus24
  else if 6 < gainDb then LnaGainMinus36
  else LnaGainMinus48

/-- SX1255Controller.SetLNAGain: initialized check, ladder lookup, then read
modify write on RXFE1 clearing bits 7 to 5 and inserting the code. -/
def setLNAGain (s : SXState) (gainDb : Nat) : Except HwError Unit × SXState :=
  if s.initialized = false then (.error .notInitialized, s)
  else
    let r := spiRead s RegRxfe1
    let reg2 := (r.1 &&& 0x1F) ||| (lnaGainSetting gainDb <<< 5)
    (.ok (), spiWrite r.2 RegRxfe1 reg2)

/-- SX1255Controller.Initialize: initialized check, then a single read of the
VERSION register to verify SPI communication; no register is written. -/
def initializeBasic (s : SXState) : Except HwError Unit × SXState :=
  if s.initialized = false then (.error .notInitialized, s)
  else
    let r := spiRead s RegVersion
    (.ok (), r.2)

/-- SX1255Controller.InitializeWithDefaults: the basic initialization, then
one register write per entry of the default table.  The Go loop iterates a
map in unspecified order; this model fixes the source text order, which the
claims settled here do not depend on. -/
def initializeWithDefaults (s : SXState) : Except HwError Unit × SXState :=
  match initializeBasic s with
  | (.error e, s1) => (.error e, s1)
  | (.ok _, s1) => (.ok (), DefaultRegisterValues.foldl (fun st p => spiWrite st p.1 p.2) s1)

/-- Helper of SPIDevice.BurstWrite: write the given values to consecutive
register addresses starting at the given one. -/
def writeSeq : SXState → Nat → List Nat → SXState
  | s, _, [] => s
  | s, a, v :: vs => writeSeq (spiWrite s a v) (a + 1) vs

/-- SPIDevice.BurstRead: a non positive count (a Go int) fails before any bus
access; otherwise the count consecutive registers are returned. -/
def burstRead (s : SXState) (startAddr : Nat) (count : Int) : Except HwError (List Nat) :=
  if count ≤ 0 then .error .invalidArgument
  else .ok ((List.range count.toNat).map fun i => s.regs (startAddr + i))

/-- SPIDevice.BurstWrite: an empty value list fails before any bus access;
otherwise the values go to consecutive registers in one burst. -/
def burstWrite (s : SXState) (startAddr : Nat) (values : List Nat) :
    Except HwError Unit × SXState :=
  if values.length = 0 then (.error .invalidArgument, s)
  else (.ok (), writeSeq s startAddr values)

/-- The two byte frame SPIDevice.WriteRegister sends on the bus: the address
with its most significant bit forced to 1 (write flag), then the value. -/
def writeFrame (addr value : Nat) : List Nat := [addr ||| 0x80, value]

/-- The two byte frame SPIDevice.ReadRegister sends on the bus: the address
with its most significant bit forced to 0 (read flag), then a dummy byte. -/
def readFrame (addr : Nat) : List Nat := [addr &&& 0x7F, 0x00]

/-- SPIDevice.ReadRegister against an abstract full duplex exchange: send the
read frame, return the second byte of the response. -/
def readRegisterOnBus (exchange : List Nat → List Nat) (addr : Nat) : Nat :=
  (exchange (readFrame addr)).getD 1 0

/-- Events of the GPIO reset trace: a write of the reset line level, or a
blocking sleep of the given number of microseconds. -/
inductive GpioEvent where
  | setReset : Nat → GpioEvent
  | sleepUs : Nat → GpioEvent
  deriving DecidableEq

/-- GPIOController.Reset as a trace program.  The hasResetLine flag models
the nil check on the requested line; setOk models success of the two line
writes.  Sleeps are blocking calls recorded as trace events; a sleep event of
n microseconds stands for the call returning no earlier than n microseconds
after it starts, which is the contract of the Go sleep used. -/
def gpioReset (hasResetLine : Bool) (setOk : Nat → Bool) :
    Except HwError Unit × List GpioEvent :=
  if hasResetLine = false then (.error .notInitialized, [])
  else if setOk 1 = false then (.error .transportFailure, [])
  else if setOk 0 = false then (.error .transportFailure, [.setReset 1, .sleepUs 100])
  else (.ok (), [.setReset 1, .sleepUs 100, .setReset 0, .sleepUs 5000])

/-- Total number of microseconds slept along a GPIO trace. -/
def sleepTotal : List GpioEvent → Nat
  | [] => 0
  | .sleepUs n :: rest => n + sleepTotal rest
  | .setReset _ :: rest => sleepTotal rest

/-- The four sub resources acquired while constructing a transceiver
controller, in acquisition order spiPort, gpioChip, resetLine, txRxLine. -/
inductive HwRes where
  | spiPort
  | gpioChip
  | resetLine
  | txRxLine
  deriving DecidableEq

/-- Outcome of a construction attempt: whether it succeeded, the resources
acquired along the way (earliest first), and the resources released before
returning (in release order). -/
structure AcqResult where
  ok : Bool
  acquired : List HwRes
  released : List HwRes
  deriving DecidableEq

/-- NewGPIOController with the success of each external acquisition given as
an oracle: chip open, reset line request, TX RX line request.  On a failed
reset line request the chip is closed; on a failed TX RX line request the
reset line and then the chip are closed. -/
def newGPIOController (chipOk resetOk txrxOk : Bool) : AcqResult :=
  if chipOk = false then ⟨false, [], []⟩
  else if resetOk = false then ⟨false, [.gpioChip], [.gpioChip]⟩
  else if txrxOk = false then ⟨false, [.gpioChip, .resetLine], [.resetLine, .gpioChip]⟩
  else ⟨true, [.gpioChip, .resetLine, .txRxLine], []⟩

/-- NewSX1255Controller with acquisition oracles: SPI open first, then the
GPIO controller; if the GPIO controller fails the SPI device is closed after
whatever the GPIO constructor itself released. -/
def newSX1255Controller (spiOk chipOk resetOk txrxOk : Bool) : AcqResult :=
  if spiOk = false then ⟨false, [], []⟩
  else
    let g := newGPIOController chipOk resetOk txrxOk
    if g.ok = false then ⟨false, .spiPort :: g.acquired, g.released ++ [.spiPort]⟩
    else ⟨true, .spiPort :: g.acquired, g.released⟩

/-- A concrete initialized controller state with a zeroed register file, used
by witnesses and counterexamples. -/
def s0 : SXState :=
  { regs := fun _ => 0, clockFreq := 32000000, initialized := true,
    writes := [], reads := [] }

/-- C2: for every frequency outside [400000000, 510000000] Hz, the frequency
setter of an initialized controller fails with InvalidArgument and leaves the
whole state untouched: validation precedes every register write, so no
partial write occurs on invalid input. -/
theorem c2_set_rx_frequency_rejects_out_of_range (s : SXState) (f : Nat)
    (hinit : s.initialized = true) (hout : f < 400000000 ∨ 510000000 < f) :
    (setRxFrequency s f).1 = .error .invalidArgument ∧ (setRxFrequency s f).2 = s := by
  have hnot : ¬ (s.initialized = false) := by rw [hinit]; simp
  unfold setRxFrequency
  rw [if_neg hnot, if_pos hout]
  exact ⟨rfl, rfl⟩

/-- Witness for C2 at the boundary input 399999999 on a concrete state. -/
theorem c2_set_rx_frequency_rejects_out_of_range_witness :
    (setRxFrequency s0 399999999).1 = .error .invalidArgument ∧
    (setRxFrequency s0 399999999).2 = s0 :=
  c2_set_rx_frequency_rejects_out_of_range s0 399999999 rfl (Or.inl (by norm_num))

/-- C4 counterexample: the default table holds 15 entries and the defaults
initialization of a concrete controller issues 15 register writes, not the
17 the claim states. -/
theorem c4_defaults_write_count_counterexample :
    (initializeWithDefaults s0).2.writes.length = 15 ∧
    ¬ ((initializeWithDefaults s0).2.writes.length = 17) := by
  exact ⟨by decide, by decide⟩

/-- C4 amended: InitializeWithDefaults writes exactly the 15 register values
of the fixed default table, and plain Initialize writes no register at all,
performing only one read of the VERSION register. -/
theorem c4_initialize_amended (s : SXState) (hinit : s.initialized = true) :
    (initializeBasic s).1 = .ok () ∧
    (initializeBasic s).2.writes = s.writes ∧
    (initializeBasic s).2.reads = s.reads ++ [RegVersion] ∧
    (initializeWithDefaults s).1 = .ok () ∧
    (initializeWithDefaults s).2.writes = s.writes ++ DefaultRegisterValues ∧
    DefaultRegisterValues.length = 15 := by
  have h1 : initializeBasic s = (.ok (), { s with reads := s.reads ++ [RegVersion] }) := by
    unfold initializeBasic spiRead
    rw [hinit]
    simp
  refine ⟨?_, ?_, ?_, ?_, ?_, rfl⟩
  · rw [h1]
  · rw [h1]
  · rw [h1]
  · unfold initializeWithDefaults
    rw [h1]
  · unfold initializeWithDefaults
    rw [h1]
    simp [DefaultRegisterValues, spiWrite, List.foldl]

/-- Witness for C4 amended on a concrete initialized state. -/
theorem c4_initialize_amended_witness :
    (initializeBasic s0).1 = .ok () ∧
    (initializeBasic s0).2.writes = s0.writes ∧
    (initializeBasic s0).2.reads = s0.reads ++ [RegVersion] ∧
    (initializeWithDefaults s0).1 = .ok () ∧
    (initializeWithDefaults s0).2.writes = s0.writes ++ DefaultRegisterValues ∧
    DefaultRegisterValues.length = 15 :=
  c4_initialize_amended s0 rfl

/-- C5 counterexample: a register write at address 0x20, outside the claimed
valid window [0x00, 0x13], does not fail with InvalidArgument: it succeeds
and the write is issued. -/
theorem c5_address_validation_counterexample :
    (writeRegister s0 0x20 0xAB).1 = Except.ok () ∧
    (writeRegister s0 0x20 0xAB).2.writes = [(0x20, 0xAB)] := by
  exact ⟨rfl, rfl⟩

/-- C5 amended: register reads and writes perform no address range
validation: on an initialized controller every address is accepted and the
access is issued; only the burst operations validate their arguments, a non
positive count or an empty value list failing with InvalidArgument. -/
theorem c5_argument_validation_amended (s : SXState) (addr value : Nat) (count : Int)
    (hinit : s.initialized = true) :
    (writeRegister s addr value).1 = .ok () ∧
    (writeRegister s addr value).2.writes = s.writes ++ [(addr, value)] ∧
    (readRegister s addr).1 = .ok (s.regs addr) ∧
    (count ≤ 0 → burstRead s addr count = .error .invalidArgument) ∧
    (burstWrite s addr []).1 = .error .invalidArgument := by
  have hnot : ¬ (s.initialized = false) := by rw [hinit]; simp
  refine ⟨?_, ?_, ?_, ?_, ?_⟩
  · unfold writeRegister
    rw [if_neg hnot]
  · unfold writeRegister
    rw [if_neg hnot]
    simp [spiWrite]
  · unfold readRegister
    rw [if_neg hnot]
    simp [spiRead]
  · intro h
    unfold burstRead
    rw [if_pos h]
  · unfold burstWrite
    simp

/-- Witness for C5 amended at address 0x20 and burst count minus one. -/
theorem c5_argument_validation_amended_witness :
    (writeRegister s0 0x20 0xAB).1 = .ok () ∧
    (writeRegister s0 0x20 0xAB).2.writes = s0.writes ++ [(0x20, 0xAB)] ∧
    (readRegister s0 0x20).1 = .ok (s0.regs 0x20) ∧
    ((-1 : Int) ≤ 0 → burstRead s0 0x20 (-1) = .error .invalidArgument) ∧
    (burstWrite s0 0x20 []).1 = .error .invalidArgument :=
  c5_argument_validation_amended s0 0x20 0xAB (-1) rfl

/-- C9: whenever the reset operation returns success, its trace is exactly
the datasheet sequence: reset line driven high, a blocking 100 microsecond
hold, reset line driven low, then a blocking 5 millisecond settle, for a
total of 5100 microseconds slept before returning. -/
theorem c9_reset_sequence (hasLine : Bool) (setOk : Nat → Bool)
    (h : (gpioReset hasLine setOk).1 = .ok ()) :
    (gpioReset hasLine setOk).2 =
      [.setReset 1, .sleepUs 100, .setReset 0, .sleepUs 5000] ∧
    sleepTotal (gpioReset hasLine setOk).2 = 5100 := by
  unfold gpioReset at h ⊢
  by_cases h1 : hasLine = false
  · simp [h1] at h
  · by_cases h2 : setOk 1 = false
    · simp [h1, h2] at h
    · by_cases h3 : setOk 0 = false
      · simp [h1, h2, h3] at h
      · simp [h1, h2, h3, sleepTotal]

/-- Witness for C9 with a present reset line and successful line writes. -/
theorem c9_reset_sequence_witness :
    (gpioReset true (fun _ => true)).2 =
      [.setReset 1, .sleepUs 100, .setReset 0, .sleepUs 5000] ∧
    sleepTotal (gpioReset true (fun _ => true)).2 = 5100 :=
  c9_reset_sequence true (fun _ => true) rfl

/-- C10: for every combination of acquisition outcomes, a failed construction
of the transceiver controller or the GPIO controller releases exactly the sub
resources acquired before the failure point, in reverse acquisition order,
and a successful construction releases nothing. -/
theorem c10_no_leak_on_failed_open :
    ∀ spiOk chipOk resetOk txrxOk : Bool,
      ((newSX1255Controller spiOk chipOk resetOk txrxOk).ok = false →
        (newSX1255Controller spiOk chipOk resetOk txrxOk).released =
          (newSX1255Controller spiOk chipOk resetOk txrxOk).acquired.reverse) ∧
      ((newSX1255Controller spiOk chipOk resetOk txrxOk).ok = true →
        (newSX1255Controller spiOk chipOk resetOk txrxOk).released = []) := by
  decide

/-- Witness for C10: the TX RX line request fails after SPI, chip and reset
line were acquired; all three are released. -/
theorem c10_no_leak_on_failed_open_witness :
    (newSX1255Controller true true true false).released =
      (newSX1255Controller true true true false).acquired.reverse :=
  (c10_no_leak_on_failed_open true true true false).1 rfl

set_option maxRecDepth 4096 in
/-- Bit facts about the two OR based read modify writes on a MODE byte: the
RX and TX bits end up set, every other bit survives both writes, and each
single write leaves all bits outside its own mask untouched. -/
theorem mode_rmw_bits : ∀ m < 256,
    ((m ||| 2) ||| 4) &&& 2 = 2 ∧ ((m ||| 2) ||| 4) &&& 4 = 4 ∧
    ((m ||| 2) ||| 4) &&& 1 = m &&& 1 ∧ ((m ||| 2) ||| 4) &&& 8 = m &&& 8 ∧
    (m ||| 2) &&& 0xFD = m &&& 0xFD ∧ (m ||| 2) &&& 2 = 2 ∧
    ((m ||| 2) ||| 4) &&& 0xFB = (m ||| 2) &&& 0xFB := by
  decide

/-- C3 counterexample: starting from MODE register value 0x00, EnableRx(true)
followed by EnableTx(true) leaves the REF bit clear, so the claim that the
resulting MODE register has the REF bit set for every initial value fails. -/
theorem c3_ref_bit_counterexample :
    (enableTx (enableRx s0 true).2 true).2.regs RegMode &&& ModeBitRefEnable = 0 := by
  decide

/-- C3 amended: for every initial MODE byte, EnableRx(true) then EnableTx(true)
leaves the RX and TX bits set and the REF and DRIVER bits equal to their
values before either call; each enable call is a read modify write that only
touches its own bit, preserving all others. -/
theorem c3_enable_rx_then_tx_amended (s : SXState)
    (hinit : s.initialized = true) (hm : s.regs RegMode < 256) :
    (enableRx s true).1 = .ok () ∧
    (enableTx (enableRx s true).2 true).1 = .ok () ∧
    (enableTx (enableRx s true).2 true).2.regs RegMode &&& ModeBitRxEnable = ModeBitRxEnable ∧
    (enableTx (enableRx s true).2 true).2.regs RegMode &&& ModeBitTxEnable = ModeBitTxEnable ∧
    (enableTx (enableRx s true).2 true).2.regs RegMode &&& ModeBitRefEnable =
      s.regs RegMode &&& ModeBitRefEnable ∧
    (enableTx (enableRx s true).2 true).2.regs RegMode &&& ModeBitDriverEnable =
      s.regs RegMode &&& ModeBitDriverEnable ∧
    (enableRx s true).2.regs RegMode &&& 0xFD = s.regs RegMode &&& 0xFD ∧
    (enableRx s true).2.regs RegMode &&& ModeBitRxEnable = ModeBitRxEnable ∧
    (enableTx (enableRx s true).2 true).2.regs RegMode &&& 0xFB =
      (enableRx s true).2.regs RegMode &&& 0xFB := by
  have hnot : ¬ (s.initialized = false) := by rw [hinit]; simp
  have h1 : (enableRx s true).1 = .ok () := by
    unfold enableRx spiRead spiWrite
    rw [if_neg hnot]
  have e1 : (enableRx s true).2.regs RegMode = s.regs RegMode ||| ModeBitRxEnable := by
    unfold enableRx spiRead spiWrite
    rw [if_neg hnot]
    simp
  have einit : (enableRx s true).2.initialized = true := by
    unfold enableRx spiRead spiWrite
    rw [if_neg hnot]
    simpa using hinit
  have hnot2 : ¬ ((enableRx s true).2.initialized = false) := by rw [einit]; simp
  have h2 : (enableTx (enableRx s true).2 true).1 = .ok () := by
    unfold enableTx spiRead spiWrite
    rw [if_neg hnot2]
  have e2 : (enableTx (enableRx s true).2 true).2.regs RegMode =
      (enableRx s true).2.regs RegMode ||| ModeBitTxEnable := by
    unfold enableTx spiRead spiWrite
    rw [if_neg hnot2]
    simp
  obtain ⟨b1, b2, b3, b4, b5, b6, b7⟩ := mode_rmw_bits (s.regs RegMode) hm
  unfold ModeBitRxEnable ModeBitTxEnable ModeBitRefEnable ModeBitDriverEnable at *
  rw [e2, e1]
  exact ⟨h1, h2, b1, b2, b3, b4, b5, b6, b7⟩

/-- Witness for C3 amended on a concrete state with MODE preset to 0x09. -/
theorem c3_enable_rx_then_tx_amended_witness :
    (enableRx (spiWrite s0 RegMode 0x09) true).1 = .ok () ∧
    (enableTx (enableRx (spiWrite s0 RegMode 0x09) true).2 true).1 = .ok () ∧
    (enableTx (enableRx (spiWrite s0 RegMode 0x09) true).2 true).2.regs RegMode &&&
      ModeBitRxEnable = ModeBitRxEnable ∧
    (enableTx (enableRx (spiWrite s0 RegMode 0x09) true).2 true).2.regs RegMode &&&
      ModeBitTxEnable = ModeBitTxEnable ∧
    (enableTx (enableRx (spiWrite s0 RegMode 0x09) true).2 true).2.regs RegMode &&&
      ModeBitRefEnable = (spiWrite s0 RegMode 0x09).regs RegMode &&& ModeBitRefEnable ∧
    (enableTx (enableRx (spiWrite s0 RegMode 0x09) true).2 true).2.regs RegMode &&&
      ModeBitDriverEnable = (spiWrite s0 RegMode 0x09).regs RegMode &&& ModeBitDriverEnable ∧
    (enableRx (spiWrite s0 RegMode 0x09) true).2.regs RegMode &&& 0xFD =
      (spiWrite s0 RegMode 0x09).regs RegMode &&& 0xFD ∧
    (enableRx (spiWrite s0 RegMode 0x09) true).2.regs RegMode &&& ModeBitRxEnable =
      ModeBitRxEnable ∧
    (enableTx (enableRx (spiWrite s0 RegMode 0x09) true).2 true).2.regs RegMode &&& 0xFB =
      (enableRx (spiWrite s0 RegMode 0x09) true).2.regs RegMode &&& 0xFB :=
  c3_enable_rx_then_tx_amended (spiWrite s0 RegMode 0x09) rfl (by decide)

set_option maxRecDepth 4096 in
/-- Bit facts about the RXFE1 read modify write of SetLNAGain: for every byte
and every three bit code, the packed byte keeps the low five bits and carries
the code in bits 7 to 5. -/
theorem lna_pack_bits : ∀ r < 256, ∀ c < 7,
    ((r &&& 31) ||| (c <<< 5)) % 32 = r % 32 ∧ ((r &&& 31) ||| (c <<< 5)) / 32 = c := by
  decide

/-- The LNA ladder only produces the six codes 1 to 6. -/
theorem lnaGainSetting_lt_7 (g : Nat) : lnaGainSetting g < 7 := by
  unfold lnaGainSetting LnaGainMax LnaGainMinus6 LnaGainMinus12 LnaGainMinus24
    LnaGainMinus36 LnaGainMinus48
  split_ifs <;> norm_num

/-- C6: SetLNAGain writes into bits 7 to 5 of RXFE1 the code selected by the
threshold ladder, leaves bits 4 to 0 unchanged, and the ladder maps the
requested dB value through the documented thresholds 45, 39, 30, 18 and 6. -/
theorem c6_set_lna_gain (s : SXState) (g : Nat)
    (hinit : s.initialized = true) (hr : s.regs RegRxfe1 < 256) :
    (setLNAGain s g).1 = .ok () ∧
    (setLNAGain s g).2.regs RegRxfe1 % 32 = s.regs RegRxfe1 % 32 ∧
    (setLNAGain s g).2.regs RegRxfe1 / 32 = lnaGainSetting g ∧
    (45 < g → lnaGainSetting g = LnaGainMax) ∧
    (39 < g ∧ g ≤ 45 → lnaGainSetting g = LnaGainMinus6) ∧
    (30 < g ∧ g ≤ 39 → lnaGainSetting g = LnaGainMinus12) ∧
    (18 < g ∧ g ≤ 30 → lnaGainSetting g = LnaGainMinus24) ∧
    (6 < g ∧ g ≤ 18 → lnaGainSetting g = LnaGainMinus36) ∧
    (g ≤ 6 → lnaGainSetting g = LnaGainMinus48) := by
  have hnot : ¬ (s.initialized = false) := by rw [hinit]; simp
  have h1 : (setLNAGain s g).1 = .ok () := by
    unfold setLNAGain spiRead spiWrite
    rw [if_neg hnot]
  have e1 : (setLNAGain s g).2.regs RegRxfe1 =
      (s.regs RegRxfe1 &&& 0x1F) ||| (lnaGainSetting g <<< 5) := by
    unfold setLNAGain spiRead spiWrite
    rw [if_neg hnot]
    simp
  obtain ⟨p1, p2⟩ := lna_pack_bits (s.regs RegRxfe1) hr (lnaGainSetting g) (lnaGainSetting_lt_7 g)
  refine ⟨h1, ?_, ?_, ?_, ?_, ?_, ?_, ?_, ?_⟩
  · rw [e1]; exact p1
  · rw [e1]; exact p2
  all_goals
    unfold lnaGainSetting LnaGainMax LnaGainMinus6 LnaGainMinus12 LnaGainMinus24
      LnaGainMinus36 LnaGainMinus48
    split_ifs <;> omega

/-- Witness for C6 at a requested gain of 46 dB on a state with RXFE1 preset
to 0x2F. -/
theorem c6_set_lna_gain_witness :
    (setLNAGain (spiWrite s0 RegRxfe1 0x2F) 46).1 = .ok () ∧
    (setLNAGain (spiWrite s0 RegRxfe1 0x2F) 46).2.regs RegRxfe1 % 32 =
      (spiWrite s0 RegRxfe1 0x2F).regs RegRxfe1 % 32 ∧
    (setLNAGain (spiWrite s0 RegRxfe1 0x2F) 46).2.regs RegRxfe1 / 32 = lnaGainSetting 46 ∧
    (45 < 46 → lnaGainSetting 46 = LnaGainMax) ∧
    (39 < 46 ∧ 46 ≤ 45 → lnaGainSetting 46 = LnaGainMinus6) ∧
    (30 < 46 ∧ 46 ≤ 39 → lnaGainSetting 46 = LnaGainMinus12) ∧
    (18 < 46 ∧ 46 ≤ 30 → lnaGainSetting 46 = LnaGainMinus24) ∧
    (6 < 46 ∧ 46 ≤ 18 → lnaGainSetting 46 = LnaGainMinus36) ∧
    (46 ≤ 6 → lnaGainSetting 46 = LnaGainMinus48) :=
  c6_set_lna_gain (spiWrite s0 RegRxfe1 0x2F) 46 rfl (by decide)

set_option maxRecDepth 4096 in
/-- OR with 0x80 on a byte sets the top bit and keeps the rest; AND with 0x7F
clears the top bit and keeps the rest. -/
theorem byte_or_and_facts : ∀ a < 256, a ||| 128 = a % 128 + 128 ∧ a &&& 127 = a % 128 := by
  decide

/-- C7: the SPI write frame is exactly the two bytes address OR 0x80 (most
significant bit set to signal a write) and value; the read frame is exactly
the two bytes address AND 0x7F (most significant bit clear) and a zero dummy
byte, and the read returns the second byte of the bus response. -/
theorem c7_spi_frames (addr value : Nat) (h : addr < 256) :
    writeFrame addr value = [addr % 128 + 128, value] ∧
    128 ≤ (writeFrame addr value).getD 0 0 ∧
    readFrame addr = [addr % 128, 0] ∧
    (readFrame addr).getD 0 0 < 128 ∧
    (∀ exchange : List Nat → List Nat,
      readRegisterOnBus exchange addr = (exchange (readFrame addr)).getD 1 0) := by
  obtain ⟨h1, h2⟩ := byte_or_and_facts addr h
  have hm : addr % 128 < 128 := Nat.mod_lt _ (by norm_num)
  refine ⟨?_, ?_, ?_, ?_, fun _ => rfl⟩
  · unfold writeFrame
    rw [show (0x80 : Nat) = 128 from rfl, h1]
  · unfold writeFrame
    rw [show (0x80 : Nat) = 128 from rfl]
    simp [h1]
  · unfold readFrame
    rw [show (0x7F : Nat) = 127 from rfl, h2]
  · unfold readFrame
    rw [show (0x7F : Nat) = 127 from rfl]
    simpa [h2] using hm

/-- AND with 255 on a Nat is reduction modulo 256. -/
theorem and_255_eq_mod (n : Nat) : n &&& 255 = n % 256 := by
  have h := Nat.and_pow_two_sub_one_eq_mod n 8
  norm_num at h
  exact h

/-- Splitting a value below 2 pow 24 into three bytes exactly as the
frequency setters do and recombining them big endian exactly as the
frequency getters do returns the value. -/
theorem combine_split24 (n : Nat) (h : n < 16777216) :
    ((n >>> 16) &&& 255) <<< 16 ||| ((n >>> 8) &&& 255) <<< 8 ||| (n &&& 255) = n := by
  have e16 : (n >>> 16) &&& 255 = n / 65536 % 256 := by
    rw [Nat.shiftRight_eq_div_pow, and_255_eq_mod]
  have e8 : (n >>> 8) &&& 255 = n / 256 % 256 := by
    rw [Nat.shiftRight_eq_div_pow, and_255_eq_mod]
  rw [e16, e8, and_255_eq_mod, Nat.shiftLeft_eq, Nat.shiftLeft_eq]
  have hb : n / 256 % 256 * 2 ^ 8 < 2 ^ 16 := by
    have : n / 256 % 256 < 256 := Nat.mod_lt _ (by norm_num)
    norm_num
    omega
  have hc : n % 256 < 2 ^ 8 := by
    have : n % 256 < 256 := Nat.mod_lt _ (by norm_num)
    norm_num
    omega
  rw [show n / 65536 % 256 * 2 ^ 16 = 2 ^ 16 * (n / 65536 % 256) by ring,
      ← Nat.mul_add_lt_is_or hb (n / 65536 % 256)]
  rw [show 2 ^ 16 * (n / 65536 % 256) + n / 256 % 256 * 2 ^ 8 =
        2 ^ 8 * (2 ^ 8 * (n / 65536 % 256) + n / 256 % 256) by ring,
      ← Nat.mul_add_lt_is_or hc (2 ^ 8 * (n / 65536 % 256) + n / 256 % 256)]
  have h8 : (2 : Nat) ^ 8 = 256 := by norm_num
  rw [h8]
  omega

/-- For every frequency at most 510 MHz the tuning word at the 32 MHz
reference clock fits in 24 bits. -/
theorem frf_in_range_lt (f : Nat) (hhi : f ≤ 510000000) : frfOf 32000000 f < 16777216 := by
  unfold frfOf natRoundDiv
  have h20 : (2 : Nat) ^ 20 = 1048576 := by norm_num
  rw [h20]
  omega

/-- Core arithmetic of the frequency round trip at the 32 MHz reference
clock: converting Hz to the rounded tuning word and back moves the value by
at most 31 Hz. -/
theorem rx_roundtrip_arith (f : Nat) (hlo : 400000000 ≤ f) (hhi : f ≤ 510000000) :
    natRoundDiv (32000000 * frfOf 32000000 f) (2 ^ 20) ≤ f + 31 ∧
    f ≤ natRoundDiv (32000000 * frfOf 32000000 f) (2 ^ 20) + 31 := by
  unfold frfOf natRoundDiv
  have h20 : (2 : Nat) ^ 20 = 1048576 := by norm_num
  rw [h20]
  omega

/-- C1: on an initialized controller with the default 32 MHz reference
clock, for every frequency in [400000000, 510000000] Hz, SetRxFrequency
followed by GetRxFrequency returns a frequency within 31 Hz of the request,
31 being the ceiling of FXOSC divided by 2 pow 20. -/
theorem c1_rx_frequency_roundtrip (s : SXState) (f : Nat)
    (hinit : s.initialized = true) (hclk : s.clockFreq = 32000000)
    (hlo : 400000000 ≤ f) (hhi : f ≤ 510000000) :
    (setRxFrequency s f).1 = .ok () ∧
    ∃ g, (getRxFrequency (setRxFrequency s f).2).1 = .ok g ∧ g ≤ f + 31 ∧ f ≤ g + 31 := by
  have hnot : ¬ (s.initialized = false) := by rw [hinit]; simp
  have hrange : ¬ (f < 400000000 ∨ 510000000 < f) := by omega
  have hset : setRxFrequency s f = (.ok (), spiWrite (spiWrite (spiWrite s RegFrfhRx
      ((frfOf s.clockFreq f >>> 16) &&& 0xFF)) RegFrfmRx ((frfOf s.clockFreq f >>> 8) &&& 0xFF))
      RegFrflRx (frfOf s.clockFreq f &&& 0xFF)) := by
    unfold setRxFrequency
    rw [if_neg hnot, if_neg hrange]
  refine ⟨by rw [hset], ?_⟩
  refine ⟨natRoundDiv (32000000 * frfOf 32000000 f) (2 ^ 20), ?_, ?_, ?_⟩
  · rw [hset]
    unfold getRxFrequency spiRead spiWrite
    simp only [hclk, hinit]
    norm_num [RegMode, RegFrfhRx, RegFrfmRx, RegFrflRx]
    rw [combine_split24 (frfOf 32000000 f) (frf_in_range_lt f hhi)]
  · exact (rx_roundtrip_arith f hlo hhi).1
  · exact (rx_roundtrip_arith f hlo hhi).2

/-- Witness for C1 at 434 MHz on a concrete initialized state. -/
theorem c1_rx_frequency_roundtrip_witness :
    (setRxFrequency s0 434000000).1 = .ok () ∧
    ∃ g, (getRxFrequency (setRxFrequency s0 434000000).2).1 = .ok g ∧
      g ≤ 434000000 + 31 ∧ 434000000 ≤ g + 31 :=
  c1_rx_frequency_roundtrip s0 434000000 rfl rfl (by norm_num) (by norm_num)

/-- C8 counterexample: already at the bottom of the valid range the tuning
word is 13107200, which is not below 2 pow 20, so the claim that Frf is a 20
bit value fails. -/
theorem c8_frf_20bit_counterexample :
    frfOf 32000000 400000000 = 13107200 ∧ ¬ (frfOf 32000000 400000000 < 2 ^ 20) := by
  exact ⟨by decide, by decide⟩

/-- C8 amended: for every frequency in the valid operating range at the
default 32 MHz clock, the tuning word is a 24 bit value (below 2 pow 24, not
2 pow 20), and both frequency setters split it into three bytes written to
the three adjacent MSB, MID and LSB registers of their path. -/
theorem c8_frf_24bit_amended (s : SXState) (f : Nat)
    (hinit : s.initialized = true) (hclk : s.clockFreq = 32000000)
    (hlo : 400000000 ≤ f) (hhi : f ≤ 510000000) :
    frfOf 32000000 f < 2 ^ 24 ∧
    (setRxFrequency s f).2.writes = s.writes ++
      [(RegFrfhRx, (frfOf 32000000 f >>> 16) &&& 0xFF),
       (RegFrfmRx, (frfOf 32000000 f >>> 8) &&& 0xFF),
       (RegFrflRx, frfOf 32000000 f &&& 0xFF)] ∧
    (setTxFrequency s f).2.writes = s.writes ++
      [(RegFrfhTx, (frfOf 32000000 f >>> 16) &&& 0xFF),
       (RegFrfmTx, (frfOf 32000000 f >>> 8) &&& 0xFF),
       (RegFrflTx, frfOf 32000000 f &&& 0xFF)] := by
  have hnot : ¬ (s.initialized = false) := by rw [hinit]; simp
  have hrange : ¬ (f < 400000000 ∨ 510000000 < f) := by omega
  refine ⟨?_, ?_, ?_⟩
  · have := frf_in_range_lt f hhi
    norm_num
    omega
  · unfold setRxFrequency
    rw [if_neg hnot, if_neg hrange]
    simp [spiWrite, hclk]
  · unfold setTxFrequency
    rw [if_neg hnot, if_neg hrange]
    simp [spiWrite, hclk]

/-- Witness for C8 amended at 434 MHz on a concrete initialized state. -/
theorem c8_frf_24bit_amended_witness :
    frfOf 32000000 434000000 < 2 ^ 24 ∧
    (setRxFrequency s0 434000000).2.writes = s0.writes ++
      [(RegFrfhRx, (frfOf 32000000 434000000 >>> 16) &&& 0xFF),
       (RegFrfmRx, (frfOf 32000000 434000000 >>> 8) &&& 0xFF),
       (RegFrflRx, frfOf 32000000 434000000 &&& 0xFF)] ∧
    (setTxFrequency s0 434000000).2.writes = s0.writes ++
      [(RegFrfhTx, (frfOf 32000000 434000000 >>> 16) &&& 0xFF),
       (RegFrfmTx, (frfOf 32000000 434000000 >>> 8) &&& 0xFF),
       (RegFrflTx, frfOf 32000000 434000000 &&& 0xFF)] :=
  c8_frf_24bit_amended s0 434000000 rfl rfl (by norm_num) (by norm_num)

/-- Witness for C7 at address 0x0C and value 0x2F. -/
theorem c7_spi_frames_witness :
    writeFrame 0x0C 0x2F = [0x0C % 128 + 128, 0x2F] ∧
    128 ≤ (writeFrame 0x0C 0x2F).getD 0 0 ∧
    readFrame 0x0C = [0x0C % 128, 0] ∧
    (readFrame 0x0C).getD 0 0 < 128 ∧
    (∀ exchange : List Nat → List Nat,
      readRegisterOnBus exchange 0x0C = (exchange (readFrame 0x0C)).getD 1 0) :=
  c7_spi_frames 0x0C 0x2F (by norm_num)

end LinhtWeb
